import Mathlib

/-!
Shallow embedding of the task scheduling core of `app/services/task_scheduler.py`
(class `TaskScheduler`): the in-memory task registry, the three housekeeping
jobs (deadline sweep, priority recalculation, suggestion refresh), cron job
validation, and the on-demand AI-assisted scheduling helper.

Modelling conventions:
* timestamps are `Int` seconds (arbitrary epoch); `datetime` subtraction and
  comparison become `Int` subtraction and comparison;
* a Python `dict` keyed by strings is an association list with the
  dict-assignment operation `dict_set` (replace the first binding of the key,
  append otherwise), matching insertion-order semantics;
* the `deadline` field of a task is `DeadlineField`: absent (`None`), a
  structured datetime, or a string that either parses as ISO-8601 to some
  instant or does not parse at all.  An empty deadline string is both falsy
  and unparsable in Python, and both paths skip the task unchanged, so
  truthiness of a string deadline is modelled as `true` without loss;
* the external AI capability calls are parameters of type `Except String _`
  (respectively a function returning one): `Except.error` is the call raising;
* a Python method that can raise `ValueError` before mutating state is
  modelled as returning the post-state paired with `Option String`, where
  `some msg` is the raised error and the post-state then equals the pre-state;
  housekeeping job bodies are total functions, reflecting that they return
  normally on every input.
-/

namespace TaskOrch

/-- Values stored in the open `metadata` mapping of a task: the Python `None`
(stored when a suggestions dict has no entry for the task id), strings
(error descriptions, ISO timestamps rendered as stored instants), stored
instants, and opaque suggestion payloads. -/
inductive MetaVal where
  | vnone : MetaVal
  | str (s : String) : MetaVal
  | time (t : Int) : MetaVal
  | payload (n : Nat) : MetaVal
deriving DecidableEq

/-- Dict assignment `d[k] = v` on an association list: replace the first
binding of `k` in place, append a new binding otherwise. -/
def dict_set {α : Type} : List (String × α) → String → α → List (String × α)
  | [], k, v => [(k, v)]
  | p :: rest, k, v => if p.1 = k then (k, v) :: rest else p :: dict_set rest k v

/-- The `deadline` field of a task: Python `None`, a structured datetime, or a
string that parses to an instant (`dstr (some t)`) or fails to parse
(`dstr none`). -/
inductive DeadlineField where
  | dnone : DeadlineField
  | dtime (t : Int) : DeadlineField
  | dstr (parsed : Option Int) : DeadlineField
deriving DecidableEq

/-- Truthiness of the deadline field (`if not deadline: ...`).  `None` is
falsy; a datetime is truthy; a string deadline is modelled truthy (the one
falsy string, the empty string, is unparsable and lands in the same
skip-unchanged path as a falsy deadline). -/
def deadline_truthy : DeadlineField → Bool
  | .dnone => false
  | .dtime _ => true
  | .dstr _ => true

/-- The instant a deadline field denotes after the string-parsing step of the
housekeeping jobs (`datetime.fromisoformat` wrapped in try/except). -/
def parse_deadline : DeadlineField → Option Int
  | .dnone => none
  | .dtime t => some t
  | .dstr p => p

/-- A task record, per the schema in the `TaskScheduler` docstring.  Fields
not observed by the scheduling core (`title`, `description`,
`estimated_duration`, `assignee`) are omitted. -/
structure Task where
  id : String
  priority : Int
  deadline : DeadlineField
  status : String
  tags : List String
  metadata : List (String × MetaVal)
deriving DecidableEq

/-- The in-memory task registry `self.tasks`, a dict keyed by task id. -/
def Registry := List (String × Task)

/-- Raw argument of `register_task`: a dict whose optional keys may be unset.
`id` absent is the validation-error case. -/
structure TaskInput where
  id : Option String
  priority : Option Int
  deadline : DeadlineField
  status : Option String
  tags : Option (List String)
  metadata : Option (List (String × MetaVal))
deriving DecidableEq

/-- Normalization performed by `register_task` via `setdefault`: fill
`priority = 3`, `status = "pending"`, empty `tags`, empty `metadata` for the
unset optional fields. -/
def normalize_task (i : TaskInput) (tid : String) : Task :=
  { id := tid
    priority := i.priority.getD 3
    deadline := i.deadline
    status := i.status.getD "pending"
    tags := i.tags.getD []
    metadata := i.metadata.getD [] }

/-- `register_task`: raise (second component `some msg`, registry unchanged)
when `id` is absent; otherwise normalize and store under the id, replacing
any previous task with that id. -/
def register_task (i : TaskInput) (reg : List (String × Task)) :
    List (String × Task) × Option String :=
  match i.id with
  | none => (reg, some "Task must include an id")
  | some tid => (dict_set reg tid (normalize_task i tid), none)

/-- Loop body of `_check_deadlines` for one task: skip when the deadline is
falsy or the status is `done`; skip when a string deadline fails to parse;
otherwise, when the deadline is strictly before `now` and the status is not
already `overdue` (nor `done`), set status `overdue` and record
`overdue_since = now` in metadata. -/
def check_deadlines_task (now : Int) (t : Task) : Task :=
  if deadline_truthy t.deadline = false ∨ t.status = "done" then t
  else
    match parse_deadline t.deadline with
    | none => t
    | some dl =>
      if dl < now ∧ t.status ≠ "overdue" ∧ t.status ≠ "done" then
        { t with status := "overdue",
                 metadata := dict_set t.metadata "overdue_since" (.time now) }
      else t

/-- One deadline-sweep cycle (`_check_deadlines`): the loop body applied to
every task of the registry. -/
def check_deadlines (now : Int) (reg : List (String × Task)) :
    List (String × Task) :=
  reg.map fun p => (p.1, check_deadlines_task now p.2)

/-- The urgency adjustment of `_recalculate_priorities`, from the parsed
deadline: with no deadline the initial value 0 is kept; otherwise, with
`delta` the signed distance to the deadline in seconds, passed gives -2,
under one hour gives -1, under 24 hours gives 0, and beyond gives +1. -/
def urgency_bump (now : Int) (deadline : Option Int) : Int :=
  match deadline with
  | none => 0
  | some dl =>
    let delta := dl - now
    if delta ≤ 0 then -2
    else if delta < 3600 then -1
    else if delta < 24 * 3600 then 0
    else 1

/-- Urgency adjustment as the specification words it, for a present deadline:
already passed (at or before now) gives -2, within 1 hour gives -1, within
24 hours gives 0, beyond 24 hours gives +1.  `delta` is the signed distance
from now to the deadline in seconds.  Stated separately from `urgency_bump`
so the code-side adjustment can be compared against the spec wording. -/
def spec_urgency_adjustment (delta : Int) : Int :=
  if delta ≤ 0 then -2
  else if delta < 3600 then -1
  else if delta < 24 * 3600 then 0
  else 1

/-- Loop body of `_recalculate_priorities` for one task: skip `done` tasks;
otherwise set priority to the current priority plus the urgency adjustment,
clamped into 1..5. -/
def recalculate_priorities_task (now : Int) (t : Task) : Task :=
  if t.status = "done" then t
  else
    let q := max 1 (min 5 (t.priority + urgency_bump now (parse_deadline t.deadline)))
    { t with priority := q }

/-- One priority-recalculation cycle (`_recalculate_priorities`): the loop
body applied to every task of the registry. -/
def recalculate_priorities (now : Int) (reg : List (String × Task)) :
    List (String × Task) :=
  reg.map fun p => (p.1, recalculate_priorities_task now p.2)

/-- Success path of `_generate_ai_suggestions` for one task: tasks whose
status is not `done` (the `pending_tasks` the engine was called with) get
the per-id entry of the returned suggestions dict (Python `None`, i.e.
`MetaVal.vnone`, when the dict has no entry) stored under `ai_suggestions`;
`done` tasks are untouched. -/
def suggestions_success_task (suggestions : List (String × MetaVal)) (t : Task) :
    Task :=
  if t.status ≠ "done" then
    let v := (suggestions.lookup t.id).getD .vnone
    { t with metadata := dict_set t.metadata "ai_suggestions" v }
  else t

/-- Failure path of `_generate_ai_suggestions` for one task: the exception
description is stored under `ai_suggestions_error`.  The except-branch loop
runs over `self.tasks.values()`, i.e. every task, with no status filter. -/
def suggestions_failure_task (e : String) (t : Task) : Task :=
  { t with metadata := dict_set t.metadata "ai_suggestions_error" (.str e) }

/-- One suggestion-refresh cycle (`_generate_ai_suggestions`), parameterized
by the outcome of the external `suggest_next_actions` call: on success attach
per-task suggestions to the non-`done` tasks, on failure attach the failure
description to every task.  Totality of this function reflects that the
method catches the exception and returns normally on every input. -/
def generate_ai_suggestions (engineResult : Except String (List (String × MetaVal)))
    (reg : List (String × Task)) : List (String × Task) :=
  match engineResult with
  | .ok s => reg.map fun p => (p.1, suggestions_success_task s p.2)
  | .error e => reg.map fun p => (p.1, suggestions_failure_task e p.2)

/-- A cron job as stored by `schedule_cron`: the five fields of the
expression. -/
structure CronJob where
  minute : String
  hour : String
  day : String
  month : String
  dow : String
deriving DecidableEq

/-- Accumulator-style whitespace tokenizer over a character list: `acc` holds
the characters of the current word in reverse. -/
def words_aux : List Char → List Char → List String
  | [], acc => if acc = [] then [] else [String.mk acc.reverse]
  | c :: cs, acc =>
    if c.isWhitespace then
      (if acc = [] then [] else [String.mk acc.reverse]) ++ words_aux cs []
    else
      words_aux cs (c :: acc)

/-- The whitespace split `cron.split()` of Python: split on runs of
whitespace, discarding empty pieces. -/
def cron_words (s : String) : List String :=
  words_aux s.data []

/-- `schedule_cron`: raise a validation error (second component `some msg`,
job store unchanged) when the expression does not have exactly 5
whitespace-separated fields; otherwise store the job under its id, replacing
any existing job with that id. -/
def schedule_cron (cron : String) (jobId : String)
    (jobs : List (String × CronJob)) : List (String × CronJob) × Option String :=
  let fields := cron_words cron
  if fields.length = 5 then
    (dict_set jobs jobId
      ⟨fields.getD 0 "", fields.getD 1 "", fields.getD 2 "", fields.getD 3 "",
        fields.getD 4 ""⟩, none)
  else
    (jobs, some "Cron expression must have 5 fields: m h dom mon dow")

/-- A schedule proposal returned by the external `propose_schedule`
capability: an optional `run_at` instant plus advisory fields (opaque). -/
structure Proposal where
  run_at : Option Int
  advisory : Nat
deriving DecidableEq

/-- `suggest_schedule_for_task`: look the task up; absent gives `none`;
otherwise call the external proposal capability (the `propose` parameter) on
the task, returning the proposal on success and `none` when the call raises
(the exception is swallowed). -/
def suggest_schedule_for_task (propose : Task → Except String Proposal)
    (reg : List (String × Task)) (taskId : String) : Option Proposal :=
  match reg.lookup taskId with
  | none => none
  | some t =>
    match propose t with
    | .ok p => some p
    | .error _ => none

end TaskOrch

namespace TaskOrch

theorem lookup_dict_set_self {α : Type} (l : List (String × α)) (k : String) (v : α) :
    (dict_set l k v).lookup k = some v := by
  induction l with
  | nil => simp [dict_set, List.lookup]
  | cons p rest ih =>
    by_cases hp : p.1 = k
    · simp [dict_set, hp, List.lookup]
    · have hk : (k == p.1) = false := beq_eq_false_iff_ne.mpr fun h => hp h.symm
      simp [dict_set, hp, List.lookup, hk, ih]

theorem lookup_dict_set_ne {α : Type} (l : List (String × α)) (k k' : String) (v : α)
    (h : k' ≠ k) : (dict_set l k v).lookup k' = l.lookup k' := by
  have hk : (k' == k) = false := beq_eq_false_iff_ne.mpr h
  induction l with
  | nil => simp [dict_set, List.lookup, hk]
  | cons p rest ih =>
    by_cases hp : p.1 = k
    · subst hp
      simp [dict_set, List.lookup, hk]
    · simp only [dict_set, if_neg hp]
      by_cases hq : k' = p.1
      · simp [List.lookup, hq]
      · have hq2 : (k' == p.1) = false := beq_eq_false_iff_ne.mpr hq
        simp [List.lookup, hq2, ih]

theorem lookup_map_snd {α β : Type} (f : α → β) (l : List (String × α)) (k : String) :
    (l.map fun p => (p.1, f p.2)).lookup k = (l.lookup k).map f := by
  induction l with
  | nil => simp [List.lookup]
  | cons p rest ih =>
    by_cases hk : k = p.1
    · simp [List.lookup, hk]
    · have hk2 : (k == p.1) = false := beq_eq_false_iff_ne.mpr hk
      simp [List.lookup, hk2, ih]

example : (check_deadlines 0 [("t1", ⟨"t1", 3, .dtime (-3600), "pending", [], []⟩)]).lookup "t1"
    = some ⟨"t1", 3, .dtime (-3600), "overdue", [], [("overdue_since", .time 0)]⟩ := by decide

example : (cron_words "* * *").length = 3 := by decide

example : (cron_words "0 9 * * 1-5").length = 5 := by decide

example : (recalculate_priorities_task 0 ⟨"t2", 3, .dtime 1800, "pending", [], []⟩).priority = 2 := by decide

example : (recalculate_priorities_task 0 ⟨"t3", 3, .dnone, "pending", [], []⟩).priority = 3 := by decide

theorem check_deadlines_task_of_status (now : Int) (t : Task)
    (h : t.status = "done" ∨ t.status = "overdue") : check_deadlines_task now t = t := by
  rcases h with hd | ho
  · simp [check_deadlines_task, hd]
  · unfold check_deadlines_task
    split
    · rfl
    · split
      · rfl
      · split
        next hc => exact absurd ho hc.2.1
        next => rfl

theorem check_deadlines_task_dnone (now : Int) (t : Task)
    (h : t.deadline = .dnone) : check_deadlines_task now t = t := by
  simp [check_deadlines_task, h, deadline_truthy, parse_deadline]

theorem check_deadlines_task_unparsable (now : Int) (t : Task)
    (h : t.deadline = .dstr none) : check_deadlines_task now t = t := by
  simp [check_deadlines_task, h, deadline_truthy, parse_deadline]

theorem check_deadlines_task_marks (now : Int) (t : Task) (dl : Int)
    (hdl : parse_deadline t.deadline = some dl) (hlt : dl < now)
    (hdone : t.status ≠ "done") (hover : t.status ≠ "overdue") :
    check_deadlines_task now t =
      { t with status := "overdue",
               metadata := dict_set t.metadata "overdue_since" (.time now) } := by
  have htr : deadline_truthy t.deadline = true := by
    cases h2 : t.deadline with
    | dnone => rw [h2] at hdl; simp [parse_deadline] at hdl
    | dtime s => rfl
    | dstr p => rfl
  simp [check_deadlines_task, htr, hdone, hover, hdl, hlt]

/-- C1: for every task in the registry whose deadline denotes an instant and
whose status is neither `done` nor `overdue`, if that instant is before
`now`, one deadline-sweep cycle sets the status to `overdue` and records the
sweep timestamp under the metadata key `overdue_since`; every task without a
deadline, and every task whose status is already `done` or `overdue`, is
left unchanged by the sweep. -/
theorem C1_deadline_sweep (now : Int) (reg : List (String × Task)) (tid : String)
    (t : Task) (hmem : reg.lookup tid = some t) :
    (∀ dl, parse_deadline t.deadline = some dl → dl < now → t.status ≠ "done" →
      t.status ≠ "overdue" →
      ∃ t2, (check_deadlines now reg).lookup tid = some t2 ∧
        t2.status = "overdue" ∧
        t2.metadata.lookup "overdue_since" = some (.time now)) ∧
    (t.deadline = .dnone → (check_deadlines now reg).lookup tid = some t) ∧
    (t.status = "done" ∨ t.status = "overdue" →
      (check_deadlines now reg).lookup tid = some t) := by
  have hmap2 : (check_deadlines now reg).lookup tid =
      some (check_deadlines_task now t) := by
    have h := lookup_map_snd (check_deadlines_task now) reg tid
    unfold check_deadlines
    rw [h, hmem]
    rfl
  refine ⟨?_, ?_, ?_⟩
  · intro dl hdl hlt hdone hover
    refine ⟨check_deadlines_task now t, hmap2, ?_, ?_⟩
    · rw [check_deadlines_task_marks now t dl hdl hlt hdone hover]
    · rw [check_deadlines_task_marks now t dl hdl hlt hdone hover]
      exact lookup_dict_set_self _ _ _
  · intro h
    rw [hmap2, check_deadlines_task_dnone now t h]
  · intro h
    rw [hmap2, check_deadlines_task_of_status now t h]

theorem C1_deadline_sweep_witness :
    ∃ t2, (check_deadlines 0
        [("t1", ⟨"t1", 3, .dtime (-3600), "pending", [], []⟩)]).lookup "t1" = some t2 ∧
      t2.status = "overdue" ∧
      t2.metadata.lookup "overdue_since" = some (.time 0) :=
  (C1_deadline_sweep 0 _ "t1" ⟨"t1", 3, .dtime (-3600), "pending", [], []⟩
      (by decide)).1 (-3600) (by decide) (by decide) (by decide) (by decide)

/-- C10: a task whose deadline field is a string that does not parse as an
ISO-8601 timestamp is skipped by the deadline sweep: the task comes out of
the cycle entirely unchanged (in particular never marked `overdue`), and the
sweep, being a total function, raises nothing. -/
theorem C10_unparsable_deadline_skipped (now : Int) (reg : List (String × Task))
    (tid : String) (t : Task) (hmem : reg.lookup tid = some t)
    (hd : t.deadline = .dstr none) :
    (check_deadlines now reg).lookup tid = some t := by
  have hmap2 : (check_deadlines now reg).lookup tid =
      some (check_deadlines_task now t) := by
    have h := lookup_map_snd (check_deadlines_task now) reg tid
    unfold check_deadlines
    rw [h, hmem]
    rfl
  rw [hmap2, check_deadlines_task_unparsable now t hd]

theorem C10_witness :
    (check_deadlines 100 [("tx", ⟨"tx", 3, .dstr none, "pending", [], []⟩)]).lookup "tx" =
      some ⟨"tx", 3, .dstr none, "pending", [], []⟩ :=
  C10_unparsable_deadline_skipped 100 _ "tx" _ (by decide) (by decide)

theorem recalculate_priorities_task_priority (now : Int) (t : Task)
    (h : t.status ≠ "done") :
    (recalculate_priorities_task now t).priority =
      max 1 (min 5 (t.priority + urgency_bump now (parse_deadline t.deadline))) := by
  simp [recalculate_priorities_task, h]

theorem recalculate_priorities_task_status (now : Int) (t : Task) :
    (recalculate_priorities_task now t).status = t.status := by
  unfold recalculate_priorities_task
  split <;> rfl

theorem recalculate_priorities_task_deadline (now : Int) (t : Task) :
    (recalculate_priorities_task now t).deadline = t.deadline := by
  unfold recalculate_priorities_task
  split <;> rfl

theorem urgency_bump_eq_spec (now dl : Int) :
    urgency_bump now (some dl) = spec_urgency_adjustment (dl - now) := rfl

theorem urgency_bump_cases (now : Int) (d : Option Int) :
    urgency_bump now d = -2 ∨ urgency_bump now d = -1 ∨ urgency_bump now d = 0 ∨
      urgency_bump now d = 1 := by
  cases d with
  | none => simp [urgency_bump]
  | some dl =>
    simp only [urgency_bump]
    by_cases h1 : dl - now ≤ 0
    · simp [h1]
    · by_cases h2 : dl - now < 3600
      · simp [h1, h2]
      · by_cases h3 : dl - now < 86400
        · simp [h1, h2, h3]
        · simp [h1, h2, h3]

/-- C2: for every task in the registry with status not `done` and a deadline
denoting an instant, one priority-recalculation cycle sets the priority to
the current priority plus the adjustment of the spec (-2 passed, -1 within
one hour, 0 within 24 hours, +1 beyond), clamped into 1..5; in particular,
with priority 3 and the deadline 30 minutes (1800 seconds) away, the new
priority is 2. -/
theorem C2_priority_formula (now : Int) (reg : List (String × Task)) (tid : String)
    (t : Task) (dl : Int) (hmem : reg.lookup tid = some t)
    (hs : t.status ≠ "done") (hdl : parse_deadline t.deadline = some dl) :
    ∃ t2, (recalculate_priorities now reg).lookup tid = some t2 ∧
      t2.priority = max 1 (min 5 (t.priority + spec_urgency_adjustment (dl - now))) ∧
      (t.priority = 3 → dl - now = 1800 → t2.priority = 2) := by
  have hmap2 : (recalculate_priorities now reg).lookup tid =
      some (recalculate_priorities_task now t) := by
    have h := lookup_map_snd (recalculate_priorities_task now) reg tid
    unfold recalculate_priorities
    rw [h, hmem]
    rfl
  refine ⟨_, hmap2, ?_, ?_⟩
  · rw [recalculate_priorities_task_priority now t hs, hdl, urgency_bump_eq_spec]
  · intro h3 h1800
    rw [recalculate_priorities_task_priority now t hs, hdl, urgency_bump_eq_spec,
      h3, h1800]
    decide

theorem C2_witness : ∃ t2,
    (recalculate_priorities 0 [("t2", ⟨"t2", 3, .dtime 1800, "pending", [], []⟩)]).lookup
        "t2" = some t2 ∧
    t2.priority = max 1 (min 5 ((3 : Int) + spec_urgency_adjustment (1800 - 0))) ∧
    ((3 : Int) = 3 → (1800 : Int) - 0 = 1800 → t2.priority = 2) :=
  C2_priority_formula 0 _ "t2" ⟨"t2", 3, .dtime 1800, "pending", [], []⟩ 1800
    (by decide) (by decide) (by decide)

/-- C3 counterexample: at the explicit input of the spec scenario (task
`t3`, priority 3, no deadline, status `pending`), one recalculation cycle
yields priority 3, not the priority 4 the claim requires. -/
theorem C3_counterexample :
    (((recalculate_priorities 0 [("t3", ⟨"t3", 3, .dnone, "pending", [], []⟩)]).lookup
          "t3").map Task.priority = some 3) ∧ ¬ (some (3 : Int) = some 4) := by
  decide

/-- C3 amended: for every task with status not `done` whose deadline is
absent (or fails to parse), one priority-recalculation cycle applies
adjustment 0, i.e. sets the priority to clamp(current priority, 1, 5); in
particular a task with priority 3 and no deadline still has priority 3
after recalculation. -/
theorem C3_amended_no_deadline (now : Int) (reg : List (String × Task))
    (tid : String) (t : Task) (hmem : reg.lookup tid = some t)
    (hs : t.status ≠ "done") (hdl : parse_deadline t.deadline = none) :
    ∃ t2, (recalculate_priorities now reg).lookup tid = some t2 ∧
      t2.priority = max 1 (min 5 t.priority) ∧
      (t.priority = 3 → t2.priority = 3) := by
  have hmap2 : (recalculate_priorities now reg).lookup tid =
      some (recalculate_priorities_task now t) := by
    have h := lookup_map_snd (recalculate_priorities_task now) reg tid
    unfold recalculate_priorities
    rw [h, hmem]
    rfl
  refine ⟨_, hmap2, ?_, ?_⟩
  · rw [recalculate_priorities_task_priority now t hs, hdl]
    simp [urgency_bump]
  · intro h3
    rw [recalculate_priorities_task_priority now t hs, hdl, h3]
    simp [urgency_bump]

theorem C3_amended_witness : ∃ t2,
    (recalculate_priorities 7 [("t3", ⟨"t3", 3, .dnone, "pending", [], []⟩)]).lookup
        "t3" = some t2 ∧
    t2.priority = max 1 (min 5 (3 : Int)) ∧ ((3 : Int) = 3 → t2.priority = 3) :=
  C3_amended_no_deadline 7 _ "t3" ⟨"t3", 3, .dnone, "pending", [], []⟩
    (by decide) (by decide) (by decide)

/-- C8 counterexample: with priority 3 (already in 1..5) and the deadline 30
minutes away, running the recalculation twice with the same `now` gives
priority 2 after the first run and 1 after the second, so the second run
does change the priority produced by the first. -/
theorem C8_counterexample :
    (recalculate_priorities_task 0 (recalculate_priorities_task 0
        ⟨"t8", 3, .dtime 1800, "pending", [], []⟩)).priority ≠
      (recalculate_priorities_task 0 ⟨"t8", 3, .dtime 1800, "pending", [], []⟩).priority := by
  decide

/-- C8 amended: for a task with status not `done`, a second recalculation
run with the same `now` leaves the priority produced by the first run
unchanged exactly when the urgency adjustment is 0, or the first run already
sits at the clamp boundary the adjustment pushes toward (1 for a negative
adjustment, 5 for a positive one); otherwise the second run moves the
priority one more step toward that boundary. -/
theorem C8_second_run_fixed_iff (now : Int) (t : Task) (hs : t.status ≠ "done") :
    ((recalculate_priorities_task now (recalculate_priorities_task now t)).priority =
        (recalculate_priorities_task now t).priority) ↔
      (urgency_bump now (parse_deadline t.deadline) = 0 ∨
        ((recalculate_priorities_task now t).priority = 1 ∧
          urgency_bump now (parse_deadline t.deadline) < 0) ∨
        ((recalculate_priorities_task now t).priority = 5 ∧
          0 < urgency_bump now (parse_deadline t.deadline))) := by
  have hs2 : (recalculate_priorities_task now t).status ≠ "done" := by
    rw [recalculate_priorities_task_status]
    exact hs
  have hd2 : parse_deadline (recalculate_priorities_task now t).deadline =
      parse_deadline t.deadline := by rw [recalculate_priorities_task_deadline]
  rw [recalculate_priorities_task_priority now _ hs2, hd2,
    recalculate_priorities_task_priority now t hs]
  rcases urgency_bump_cases now (parse_deadline t.deadline) with h | h | h | h <;>
    rw [h] <;> omega

theorem C8_witness :
    (recalculate_priorities_task 0 (recalculate_priorities_task 0
        ⟨"t8b", 3, .dtime 7200, "pending", [], []⟩)).priority =
      (recalculate_priorities_task 0 ⟨"t8b", 3, .dtime 7200, "pending", [], []⟩).priority :=
  (C8_second_run_fixed_iff 0 ⟨"t8b", 3, .dtime 7200, "pending", [], []⟩
      (by decide)).mpr (Or.inl (by decide))

/-- C4: evaluation of the code at the failing input.  The registry holds one
task with status `done` whose metadata already binds `ai_suggestions_error`
to `"old"`; after a suggestion-refresh cycle whose external call fails with
`"boom"`, the failure branch (which loops over every task, with no status
filter) has overwritten that pre-existing binding of the `done` task with
`"boom"`, so a housekeeping job mutated a `done` task. -/
theorem C4_done_task_mutated_on_failure :
    (((generate_ai_suggestions (.error "boom")
            [("d1", ⟨"d1", 3, .dnone, "done", [],
              [("ai_suggestions_error", .str "old")]⟩)]).lookup "d1").map
        (fun u => u.metadata.lookup "ai_suggestions_error") =
      some (some (.str "boom"))) ∧ MetaVal.str "boom" ≠ MetaVal.str "old" := by
  decide

/-- C5: when the external suggestion capability fails, one suggestion-refresh
cycle sets the metadata key `ai_suggestions_error` of every non-`done` task
in the registry to the failure description, and sets `ai_suggestions` on no
task (its binding is exactly what it was before the cycle); the cycle is a
total function, modelling that the method catches the failure and returns
normally instead of raising to its caller. -/
theorem C5_suggestion_failure_fail_open (e : String) (reg : List (String × Task))
    (tid : String) (t : Task) (hmem : reg.lookup tid = some t) :
    ∃ t2, (generate_ai_suggestions (.error e) reg).lookup tid = some t2 ∧
      (t.status ≠ "done" → t2.metadata.lookup "ai_suggestions_error" = some (.str e)) ∧
      t2.metadata.lookup "ai_suggestions" = t.metadata.lookup "ai_suggestions" := by
  have hmap2 : (generate_ai_suggestions (.error e) reg).lookup tid =
      some (suggestions_failure_task e t) := by
    have h := lookup_map_snd (suggestions_failure_task e) reg tid
    unfold generate_ai_suggestions
    rw [h, hmem]
    rfl
  refine ⟨_, hmap2, fun _ => ?_, ?_⟩
  · exact lookup_dict_set_self _ _ _
  · exact lookup_dict_set_ne _ _ _ _ (by decide)

theorem C5_witness : ∃ t2,
    (generate_ai_suggestions (.error "down")
        [("p1", ⟨"p1", 3, .dnone, "pending", [], []⟩)]).lookup "p1" = some t2 ∧
    ("pending" ≠ "done" → t2.metadata.lookup "ai_suggestions_error" = some (.str "down")) ∧
    t2.metadata.lookup "ai_suggestions" = none :=
  C5_suggestion_failure_fail_open "down" _ "p1" ⟨"p1", 3, .dnone, "pending", [], []⟩
    (by decide)

/-- C6: `register_task` raises a validation error iff the input lacks `id`,
and leaves the registry unchanged in that case; otherwise it raises nothing,
stores under the id the input task with defaults (`priority = 3`, status
`pending`, empty `tags`, empty `metadata`) filled for the unset optional
fields, fully replacing any previously registered task of that id, and
leaves every other id untouched. -/
theorem C6_register_task (i : TaskInput) (reg : List (String × Task)) :
    ((register_task i reg).2.isSome = true ↔ i.id = none) ∧
    (i.id = none → (register_task i reg).1 = reg) ∧
    (∀ tid, i.id = some tid →
      (register_task i reg).1.lookup tid = some (normalize_task i tid) ∧
      (∀ k, k ≠ tid → (register_task i reg).1.lookup k = reg.lookup k) ∧
      (i.priority = none → (normalize_task i tid).priority = 3) ∧
      (i.status = none → (normalize_task i tid).status = "pending") ∧
      (i.tags = none → (normalize_task i tid).tags = []) ∧
      (i.metadata = none → (normalize_task i tid).metadata = [])) := by
  cases hid : i.id with
  | none => refine ⟨?_, ?_, ?_⟩ <;> simp [register_task, hid]
  | some tid0 =>
    refine ⟨?_, ?_, ?_⟩
    · simp [register_task, hid]
    · simp [hid]
    · intro tid htid
      injection htid with heq
      subst heq
      refine ⟨?_, ?_, ?_, ?_, ?_, ?_⟩
      · simp [register_task, hid, lookup_dict_set_self]
      · intro k hk
        simp [register_task, hid, lookup_dict_set_ne reg tid0 k _ hk]
      · intro h
        simp [normalize_task, h]
      · intro h
        simp [normalize_task, h]
      · intro h
        simp [normalize_task, h]
      · intro h
        simp [normalize_task, h]

theorem C6_witness :
    (register_task ⟨some "a", none, .dnone, none, none, none⟩
        [("a", ⟨"a", 1, .dtime 5, "overdue", ["x"], [("k", .str "v")]⟩)]).1.lookup "a" =
      some (normalize_task ⟨some "a", none, .dnone, none, none, none⟩ "a") :=
  ((C6_register_task ⟨some "a", none, .dnone, none, none, none⟩
      [("a", ⟨"a", 1, .dtime 5, "overdue", ["x"], [("k", .str "v")]⟩)]).2.2 "a" rfl).1

/-- C7: `schedule_cron` raises a validation error synchronously and leaves
the job store unchanged whenever the cron expression does not split into
exactly 5 whitespace-separated fields, and raises no such error when the
expression has exactly 5 fields. -/
theorem C7_schedule_cron_validation (cron jobId : String)
    (jobs : List (String × CronJob)) :
    ((cron_words cron).length ≠ 5 →
      (schedule_cron cron jobId jobs).2.isSome = true ∧
      (schedule_cron cron jobId jobs).1 = jobs) ∧
    ((cron_words cron).length = 5 → (schedule_cron cron jobId jobs).2 = none) := by
  by_cases h : (cron_words cron).length = 5
  · exact ⟨fun hc => absurd h hc, fun _ => by simp [schedule_cron, h]⟩
  · exact ⟨fun _ => by simp [schedule_cron, h], fun hc => absurd hc h⟩

theorem C7_witness :
    ((schedule_cron "* * *" "job" []).2.isSome = true ∧
      (schedule_cron "* * *" "job" []).1 = []) ∧
    (schedule_cron "0 9 * * 1-5" "job2" []).2 = none :=
  ⟨(C7_schedule_cron_validation "* * *" "job" []).1 (by decide),
    (C7_schedule_cron_validation "0 9 * * 1-5" "job2" []).2 (by decide)⟩

/-- C9: `suggest_schedule_for_task` returns no result when no task with the
given id exists in the registry; returns no result when the task exists but
the external proposal capability raises (the error is swallowed); and
returns the proposal when the task exists and the capability succeeds.  It
is a total function: no input makes it raise. -/
theorem C9_suggest_schedule (propose : Task → Except String Proposal)
    (reg : List (String × Task)) (taskId : String) :
    (reg.lookup taskId = none → suggest_schedule_for_task propose reg taskId = none) ∧
    (∀ t e, reg.lookup taskId = some t → propose t = .error e →
      suggest_schedule_for_task propose reg taskId = none) ∧
    (∀ t p, reg.lookup taskId = some t → propose t = .ok p →
      suggest_schedule_for_task propose reg taskId = some p) := by
  refine ⟨?_, ?_, ?_⟩
  · intro h
    simp [suggest_schedule_for_task, h]
  · intro t e hm hp
    simp [suggest_schedule_for_task, hm, hp]
  · intro t p hm hp
    simp [suggest_schedule_for_task, hm, hp]

theorem C9_witness :
    suggest_schedule_for_task (fun _ => Except.error "down") [] "missing" = none :=
  (C9_suggest_schedule (fun _ => Except.error "down") [] "missing").1 rfl

end TaskOrch
